import Mathlib

/-!
# Verification of the MQTT publisher/subscriber clients

A shallow embedding of `scripts/publisher.py` and `scripts/subscriber.py`:
pure translations of the credential check, message construction, the
publisher's counting loop, the subscriber's message handler and connect
callback, the JSON serializer/parser pair used on the wire, and an
exception-monad rendering of the shutdown control flow.  External
collaborators (filesystem, clock, random source, paho client, the `json`
module) are modelled as explicit inputs or as small executable functions.
-/

namespace Mqtt

/-! ## Logging model

Python's `logging` calls are modelled as a list of emitted events in
program order.  Log levels mirror the severities used by the scripts. -/

inductive LogLevel where
  | debug
  | info
  | warning
  | error
deriving DecidableEq, Repr

structure LogEvent where
  level : LogLevel
  text : String
deriving DecidableEq, Repr

/-! ## Substring search

`strHas hay needle` decides whether `needle` occurs contiguously in `hay`;
used to state "the log contains ..." properties. -/

def listLeads (hay needle : List Char) : Bool :=
  match needle with
  | [] => true
  | d :: ds =>
    match hay with
    | [] => false
    | c :: cs => c = d && listLeads cs ds

def listHasRun : List Char → List Char → Bool
  | [], needle => needle.isEmpty
  | c :: cs, needle => listLeads (c :: cs) needle || listHasRun cs needle

def strHas (hay needle : String) : Bool :=
  listHasRun hay.data needle.data

/-! ## Credential Loader (`check_cert_files`, identical in both scripts)

The filesystem is an explicit input assigning each path its stat: whether
the path resolves to a regular file (`os.path.isfile`) and whether the
process may read it (`os.access(..., os.R_OK)`). -/

structure FileStat where
  isfile : Bool
  readable : Bool

/-- The `for cert_file in [ca_cert, client_cert, client_key]` loop body:
first failure (missing file checked before unreadable file) logs one error
and returns `False`; if every file passes, returns `True`. -/
def check_cert_files_loop (fs : String → FileStat) : List String → Bool × List LogEvent
  | [] => (true, [])
  | f :: rest =>
    if !(fs f).isfile then
      (false, [⟨.error, "Certificate file not found: " ++ f⟩])
    else if !(fs f).readable then
      (false, [⟨.error, "Certificate file not readable: " ++ f⟩])
    else
      check_cert_files_loop fs rest

/-- `check_cert_files(ca_cert, client_cert, client_key)` from
`publisher.py` lines 106-115 and `subscriber.py` lines 128-137. -/
def check_cert_files (fs : String → FileStat) (ca_cert client_cert client_key : String) :
    Bool × List LogEvent :=
  check_cert_files_loop fs [ca_cert, client_cert, client_key]

/-- Result of running `main` up to (and including) the `client.connect`
call: `exitCode = some c` means the function returned `c` during setup;
`none` means setup succeeded and the main loop was entered. -/
structure SetupResult where
  exitCode : Option Nat
  connectAttempts : Nat
  logs : List LogEvent

/-- The setup prefix of `main` (`publisher.py` lines 118-162, and the
identically structured `subscriber.py` lines 140-188): certificate check,
then `tls_set` (may raise: `tlsOk = false`), then `connect` (may raise:
`connectOk = false`).  Each failure logs and returns 1. -/
def main_setup (fs : String → FileStat) (ca_cert cert key : String)
    (tlsOk connectOk : Bool) : SetupResult :=
  let chk := check_cert_files fs ca_cert cert key
  if !chk.1 then
    { exitCode := some 1, connectAttempts := 0, logs := chk.2 }
  else
    let l1 := chk.2 ++ [⟨.info, "Setting up TLS/SSL with certificate authentication"⟩]
    if !tlsOk then
      { exitCode := some 1, connectAttempts := 0,
        logs := l1 ++ [⟨.error, "Failed to set up TLS"⟩] }
    else
      let l2 := l1 ++ [⟨.info, "Connecting to secure broker..."⟩]
      if !connectOk then
        { exitCode := some 1, connectAttempts := 1,
          logs := l2 ++ [⟨.error, "Connection failed"⟩] }
      else
        { exitCode := none, connectAttempts := 1, logs := l2 }

/-! ## JSON values

The fragment of JSON that the scripts exchange: integers, strings and
objects (Python dicts with insertion order).  Enough to model the
messages built by `create_sample_message` and anything the subscriber's
field accesses distinguish. -/

inductive Json where
  | jint (n : Int)
  | jstr (s : String)
  | jobj (fields : List (String × Json))

/-- Python dict lookup `d[k]` restricted to the success case: the value of
the last binding of `k` (duplicate JSON keys resolve last-wins in
`json.loads`), `none` if `k` is absent or `j` is not an object. -/
def getKey (j : Json) (k : String) : Option Json :=
  match j with
  | .jobj fields => (fields.reverse.find? (fun kv => kv.1 == k)).map (fun kv => kv.2)
  | _ => none

/-- The key list of an object, in order. -/
def objKeys : Json → List String
  | .jobj fields => fields.map (fun kv => kv.1)
  | _ => []

/-! ## Clock and randomness collaborators -/

/-- Decimal digits of `n`, most significant first, via repeated division
as Python's `str(int)` renders nonnegative integers. -/
def printNatInto (n : Nat) (acc : List Char) : List Char :=
  if h : n < 10 then Nat.digitChar n :: acc
  else printNatInto (n / 10) (Nat.digitChar (n % 10) :: acc)
termination_by n
decreasing_by exact Nat.div_lt_self (by omega) (by omega)

def printNat (n : Nat) : List Char := printNatInto n []

def printInt : Int → List Char
  | .ofNat n => printNat n
  | .negSucc m => '-' :: printNat (m + 1)

/-- Zero-padding to `width` digits, as `strftime` field directives do. -/
def padNat (width n : Nat) : List Char :=
  List.replicate (width - (printNat n).length) '0' ++ printNat n

structure DateTime where
  year : Nat
  month : Nat
  day : Nat
  hour : Nat
  minute : Nat
  second : Nat

/-- `time.strftime("%Y-%m-%d %H:%M:%S")`: the wall-clock rendered with
zero-padded fields. -/
def strftime (t : DateTime) : String :=
  String.mk (padNat 4 t.year ++ '-' :: padNat 2 t.month ++ '-' :: padNat 2 t.day ++
    ' ' :: padNat 2 t.hour ++ ':' :: padNat 2 t.minute ++ ':' :: padNat 2 t.second)

/-- `random.randint(lo, hi)` (both bounds inclusive) driven by an
arbitrary seed. -/
def randint (seed lo hi : Nat) : Nat := lo + seed % (hi + 1 - lo)

/-- `random.choice(xs)` driven by an arbitrary seed. -/
def randchoice (seed : Nat) (xs : List String) : String :=
  xs.getD (seed % xs.length) ""

/-! ## Producer: `create_sample_message` and the publishing loop -/

/-- `create_sample_message(message_count)` from `publisher.py` lines
96-103: a dict with exactly the four keys, in source order.  The clock
and the two `random` draws are explicit inputs. -/
def create_sample_message (message_count : Nat) (now : DateTime)
    (valueSeed statusSeed : Nat) : Json :=
  .jobj [
    ("message_id", .jint (message_count : Int)),
    ("timestamp", .jstr (strftime now)),
    ("value", .jint ((randint valueSeed 0 100 : Nat) : Int)),
    ("status", .jstr (randchoice statusSeed ["green", "yellow", "red"]))]

/-- The publishing loop of `main` (`publisher.py` lines 167-178) run for
`n` iterations from counter value `count`: `message_count` is incremented
at the top of each cycle and the cycle's message uses the incremented
value.  `clock`, `valueSeeds`, `statusSeeds` supply each cycle's
collaborator draws. -/
def producer_messages (clock : Nat → DateTime) (valueSeeds statusSeeds : Nat → Nat) :
    Nat → Nat → List Json
  | _, 0 => []
  | count, n + 1 =>
    create_sample_message (count + 1) (clock count) (valueSeeds count) (statusSeeds count) ::
      producer_messages clock valueSeeds statusSeeds (count + 1) n

/-! ## Default credential paths (publisher side) and example filesystems -/

def pubCaPath : String := "certs/ca/ca.crt"
def pubCertPath : String := "certs/clients/publisher.crt"
def pubKeyPath : String := "certs/clients/publisher.key"

/-- A filesystem on which the CA certificate exists but is unreadable and
every other path is absent. -/
def fsUnreadableCa : String → FileStat := fun p =>
  if p = pubCaPath then ⟨true, false⟩ else ⟨false, false⟩

/-- A filesystem with no files at all. -/
def fsAllMissing : String → FileStat := fun _ => ⟨false, false⟩

/-! ## Python value rendering

`str(x)` as used by the f-strings in the subscriber's log lines: integers
render as digits, strings render as themselves, and dicts render in
Python `repr` form (single-quoted keys/strings, `\x7b...\x7d` braces). -/

mutual

def pyRepr : Json → String
  | .jint n => String.mk (printInt n)
  | .jstr s => "\x27" ++ s ++ "\x27"
  | .jobj fields => "\x7b" ++ pyReprFields fields ++ "\x7d"

def pyReprFields : List (String × Json) → String
  | [] => ""
  | [(k, v)] => "\x27" ++ k ++ "\x27: " ++ pyRepr v
  | (k, v) :: kv :: rest => "\x27" ++ k ++ "\x27: " ++ pyRepr v ++ ", " ++ pyReprFields (kv :: rest)

end

def pyStr : Json → String
  | .jstr s => s
  | j => pyRepr j

/-! ## Consumer: `on_message` (`subscriber.py` lines 89-117)

The decode (`msg.payload.decode("utf-8")`) and parse (`json.loads`)
outcomes of the inbound envelope are supplied as an explicit input: the
two failure constructors carry the exception/decoded text used by the
handler's log lines. -/

inductive ParsedPayload where
  | decodeErr (excText : String)
  | jsonErr (payload_str : String)
  | ok (message : Json)

/-- Python subscript `message[k]`: the value for a dict holding `k`, a
`KeyError` for a dict lacking it, a `TypeError` for a non-dict. -/
inductive Access where
  | found (v : Json)
  | keyErr (k : String)
  | typeErr (excText : String)

def pyGetItem (j : Json) (k : String) : Access :=
  match j with
  | .jobj fields =>
    match fields.reverse.find? (fun kv => kv.1 == k) with
    | some kv => .found kv.2
    | none => .keyErr k
  | .jint _ => .typeErr "int is not subscriptable"
  | .jstr _ => .typeErr "string indices must be integers"

/-- Python `message["status"] == "red"`: true exactly for the JSON string
"red". -/
def pyEqRedStr : Json → Bool
  | .jstr s => s == "red"
  | _ => false

structure HandlerResult where
  logs : List LogEvent
  raised : Bool

def msgHeader (topic : String) : String :=
  "\n--- New Message Received on " ++ topic ++ " ---"

/-- `str(KeyError(k))` is the single-quoted key, so line 113 logs
`Missing expected key in message: \x27k\x27`. -/
def missingKeyText (k : String) : String :=
  "Missing expected key in message: \x27" ++ k ++ "\x27"

/-- The two log lines of the `except KeyError` branch (lines 112-114). -/
def keyErrorTail (message : Json) (k : String) : List LogEvent :=
  [⟨.error, missingKeyText k⟩, ⟨.debug, "Message content: " ++ pyStr message⟩]

/-- The two log lines of the `except Exception` branch (lines 115-117). -/
def excTail (raw excText : String) : List LogEvent :=
  [⟨.error, "Error processing message: " ++ excText⟩, ⟨.debug, "Raw message: " ++ raw⟩]

/-- The `on_message` callback: each `message[...]` subscript is evaluated
in source order, the first failure routing to the matching `except`
branch with the log lines accumulated so far; no branch re-raises, so the
handler always returns (`raised = false`).  `receive_time` stands for
`datetime.now()` and `raw` for `str(msg.payload)`. -/
def on_message (topic receive_time raw : String) (p : ParsedPayload) : HandlerResult :=
  match p with
  | .decodeErr e => ⟨excTail raw e, false⟩
  | .jsonErr payload_str =>
    ⟨[⟨.error, "Error decoding JSON message"⟩, ⟨.debug, "Raw message: " ++ payload_str⟩], false⟩
  | .ok message =>
    let acc0 := [(⟨.info, msgHeader topic⟩ : LogEvent)]
    match pyGetItem message "message_id" with
    | .keyErr k => ⟨acc0 ++ keyErrorTail message k, false⟩
    | .typeErr e => ⟨acc0 ++ excTail raw e, false⟩
    | .found mid =>
      let acc1 := acc0 ++ [⟨.info, "Message ID: " ++ pyStr mid⟩]
      match pyGetItem message "timestamp" with
      | .keyErr k => ⟨acc1 ++ keyErrorTail message k, false⟩
      | .typeErr e => ⟨acc1 ++ excTail raw e, false⟩
      | .found ts =>
        let acc2 := acc1 ++ [⟨.info, "Message timestamp: " ++ pyStr ts⟩,
                             ⟨.info, "Received at: " ++ receive_time⟩]
        match pyGetItem message "value" with
        | .keyErr k => ⟨acc2 ++ keyErrorTail message k, false⟩
        | .typeErr e => ⟨acc2 ++ excTail raw e, false⟩
        | .found v =>
          let acc3 := acc2 ++ [⟨.info, "Value: " ++ pyStr v⟩]
          match pyGetItem message "status" with
          | .keyErr k => ⟨acc3 ++ keyErrorTail message k, false⟩
          | .typeErr e => ⟨acc3 ++ excTail raw e, false⟩
          | .found st =>
            let acc4 := acc3 ++ [⟨.info, "Status: " ++ pyStr st⟩]
            if pyEqRedStr st then
              ⟨acc4 ++ [⟨.warning, "ALERT: Red status detected!"⟩], false⟩
            else ⟨acc4, false⟩

/-! ## Connection state and callbacks

`ConnectionState` is the spec's Event Dispatcher abstraction of the paho
session; the code's callback branches are labelled with the transitions
the spec assigns them. -/

inductive ConnectionState where
  | Disconnected
  | Connecting
  | Connected
  | Failed
deriving DecidableEq, Repr

/-- One consumer receive step: `on_message` only logs — it never touches
the session — so the connection state passes through unchanged. -/
def consumer_step (st : ConnectionState) (topic receive_time raw : String)
    (p : ParsedPayload) : ConnectionState × HandlerResult :=
  (st, on_message topic receive_time raw p)

structure ConnectOutcome where
  state : ConnectionState
  subscribes : List (String × Nat)
  logs : List LogEvent

/-- The subscriber's `on_connect` callback (`subscriber.py` lines 67-75):
on success code 0 it logs the connection, issues one
`client.subscribe(topic, qos=1)` and logs the subscription; otherwise it
only logs the failure reason.  `subscribes` collects the `(topic, qos)`
requests issued. -/
def subscriber_on_connect (broker topic : String) (reason_code : Nat) : ConnectOutcome :=
  if reason_code = 0 then
    { state := .Connected,
      subscribes := [(topic, 1)],
      logs := [⟨.info, "Connected to MQTT Broker: " ++ broker ++ " using TLS/SSL"⟩,
               ⟨.info, "Subscribed to topic: " ++ topic⟩] }
  else
    { state := .Failed,
      subscribes := [],
      logs := [⟨.error, "Failed to connect, return code: " ++ String.mk (printNat reason_code)⟩] }

/-! ## Shutdown control flow (`publisher.py` lines 167-202,
`subscriber.py` lines 192-206)

A small exception monad renders the `try/except/finally` structure of
`main` after setup.  The state records the emitted log lines and the
client calls made during teardown; `Exc` is the Python exception
hierarchy as the handlers split it (`KeyboardInterrupt` is not an
`Exception`, so an `except Exception` clause re-raises it). -/

inductive Exc where
  | keyboardInterrupt
  | runtime (msg : String)

structure RunState where
  logs : List LogEvent
  loopStopped : Bool
  disconnected : Bool
  disconnectCalls : Nat

def PyM (α : Type) : Type := RunState → Except Exc α × RunState

def pyPure (a : α) : PyM α := fun s => (.ok a, s)

def pyRaise (e : Exc) : PyM α := fun s => (.error e, s)

def pyLog (lvl : LogLevel) (t : String) : PyM Unit := fun s =>
  (.ok (), { s with logs := s.logs ++ [⟨lvl, t⟩] })

/-- Sequencing: a raised exception skips the continuation. -/
def pySeq (x : PyM Unit) (y : PyM α) : PyM α := fun s =>
  match x s with
  | (.ok _, s1) => y s1
  | (.error e, s1) => (.error e, s1)

/-- `try body except A: ... except B: ...` where the clauses jointly
cover every exception (as `except KeyboardInterrupt` plus
`except Exception` do here). -/
def pyCatchAll (body : PyM α) (handler : Exc → PyM α) : PyM α := fun s =>
  match body s with
  | (.ok a, s1) => (.ok a, s1)
  | (.error e, s1) => handler e s1

/-- `try body except Exception as e: handler(e)`: `KeyboardInterrupt` is
not an `Exception`, so it propagates. -/
def pyCatchException (body : PyM α) (handler : String → PyM α) : PyM α := fun s =>
  match body s with
  | (.ok a, s1) => (.ok a, s1)
  | (.error (.runtime m), s1) => handler m s1
  | (.error .keyboardInterrupt, s1) => (.error .keyboardInterrupt, s1)

/-- `try body finally fin`: the finalizer runs on both exits; an
exception raised by the finalizer replaces the in-flight one. -/
def pyTryFinally (body : PyM α) (fin : PyM Unit) : PyM α := fun s =>
  match body s with
  | (.ok a, s1) =>
    match fin s1 with
    | (.ok _, s2) => (.ok a, s2)
    | (.error e2, s2) => (.error e2, s2)
  | (.error e, s1) =>
    match fin s1 with
    | (.ok _, s2) => (.error e, s2)
    | (.error e2, s2) => (.error e2, s2)

def client_loop_stop : PyM Unit := fun s =>
  (.ok (), { s with loopStopped := true })

/-- `client.disconnect()`: the call is always counted; `dFail = some m`
makes it raise an `Exception` with text `m`. -/
def client_disconnect (dFail : Option String) : PyM Unit := fun s =>
  let s1 := { s with disconnectCalls := s.disconnectCalls + 1 }
  match dFail with
  | none => (.ok (), { s1 with disconnected := true })
  | some m => (.error (.runtime m), s1)

/-- The tail of the publisher's `main` from entering the `try` around the
publishing loop: the `while True` body never returns normally, so its
only exits are exceptions, supplied as `fate`.  The handlers, the
`finally` block with its inner `try/except Exception`, and the trailing
`return 0` are translated clause by clause. -/
def publisher_tail (fate : Exc) (dFail : Option String) : PyM Nat :=
  pySeq
    (pyTryFinally
      (pyCatchAll (pyRaise fate)
        (fun e => match e with
          | .keyboardInterrupt => pyLog .info "Publisher terminated by user"
          | .runtime m => pyLog .error ("Error: " ++ m)))
      (pySeq
        (pyCatchException
          (pySeq client_loop_stop (client_disconnect dFail))
          (fun m => pyLog .error ("Disconnect failed: " ++ m)))
        (pyLog .info "Disconnected from broker")))
    (pyPure 0)

/-- The tail of the subscriber's `main` from `client.loop_forever()`:
identical structure, without `loop_stop`. -/
def subscriber_tail (fate : Exc) (dFail : Option String) : PyM Nat :=
  pySeq
    (pyTryFinally
      (pyCatchAll (pyRaise fate)
        (fun e => match e with
          | .keyboardInterrupt => pyLog .info "\nSubscriber terminated by user"
          | .runtime m => pyLog .error ("Error: " ++ m)))
      (pySeq
        (pyCatchException (client_disconnect dFail)
          (fun m => pyLog .error ("Disconnect failed: " ++ m)))
        (pyLog .info "Disconnected from broker")))
    (pyPure 0)

def runState0 : RunState := ⟨[], false, false, 0⟩

def publisher_exit (fate : Exc) (dFail : Option String) : Except Exc Nat × RunState :=
  publisher_tail fate dFail runState0

def subscriber_exit (fate : Exc) (dFail : Option String) : Except Exc Nat × RunState :=
  subscriber_tail fate dFail runState0

/-! ## Wire format: `json.dumps` and `json.loads`

The producer serializes with `json.dumps` (default separators: `", "`
between members, `": "` after keys) and the consumer parses with
`json.loads`.  Both stdlib collaborators are modelled on the fragment the
scripts exchange: integers, strings and objects.  The serializer assumes
strings free of characters needing escapes (every string the producer
emits — strftime output, the three status words, the fixed keys — is);
the parser accepts the common single-character escapes and arbitrary
nesting, with a recursion budget of one unit per nesting level and per
object member, amply covered by `loads`' choice of input length + 1. -/

mutual

def dumpsVal : Json → List Char
  | .jint n => printInt n
  | .jstr s => '"' :: (s.data ++ ['"'])
  | .jobj fields => '{' :: (dumpsFields fields ++ ['}'])

def dumpsFields : List (String × Json) → List Char
  | [] => []
  | [(k, v)] => '"' :: (k.data ++ '"' :: ':' :: ' ' :: dumpsVal v)
  | (k, v) :: kv :: rest =>
    '"' :: (k.data ++ '"' :: ':' :: ' ' :: (dumpsVal v ++ ',' :: ' ' :: dumpsFields (kv :: rest)))

end

def dumps (j : Json) : String := String.mk (dumpsVal j)

def isJsonSpace (c : Char) : Bool :=
  c == ' ' || c == '\t' || c == '\n' || c == '\r'

def skipSpaces : List Char → List Char
  | [] => []
  | c :: rest => if isJsonSpace c then skipSpaces rest else c :: rest

def digitHeaded : List Char → Bool
  | [] => false
  | c :: _ => c.isDigit

/-- The single-character escape table: `\x` stands for `itself` on the
punctuation escapes and for a control character on the letter escapes. -/
def unescape (e : Char) : Option Char :=
  if e = '"' ∨ e = '\\' ∨ e = '/' then some e
  else if e = 'n' then some '\n'
  else if e = 't' then some '\t'
  else if e = 'r' then some '\r'
  else if e = 'b' then some (Char.ofNat 8)
  else if e = 'f' then some (Char.ofNat 12)
  else none

/-- The body of a string literal after its opening quote, up to the
closing quote. -/
def parseStrBody : List Char → Option (List Char × List Char)
  | [] => none
  | c :: rest =>
    if c = '"' then some ([], rest)
    else if c = '\\' then
      match rest with
      | [] => none
      | e :: rest2 =>
        match unescape e, parseStrBody rest2 with
        | some u, some (l, r) => some (u :: l, r)
        | _, _ => none
    else
      match parseStrBody rest with
      | some (l, r) => some (c :: l, r)
      | none => none

/-- Consume a maximal run of decimal digits, folding them onto `acc`. -/
def parseDigits (acc : Nat) : List Char → Nat × List Char
  | [] => (acc, [])
  | c :: rest =>
    if c.isDigit then parseDigits (acc * 10 + (c.toNat - 48)) rest
    else (acc, c :: rest)

def parsePosInt : List Char → Option (Nat × List Char)
  | [] => none
  | c :: rest =>
    if c.isDigit then some (parseDigits (c.toNat - 48) rest) else none

def parseNum : List Char → Option (Int × List Char)
  | [] => none
  | c :: rest =>
    if c = '-' then (parsePosInt rest).map (fun p => (-(p.1 : Int), p.2))
    else (parsePosInt (c :: rest)).map (fun p => ((p.1 : Int), p.2))

mutual

def parseVal : Nat → List Char → Option (Json × List Char)
  | 0, _ => none
  | fuel + 1, l =>
    match skipSpaces l with
    | [] => none
    | c :: rest =>
      if c = '"' then
        match parseStrBody rest with
        | some (cs, r) => some (.jstr (String.mk cs), r)
        | none => none
      else if c = '{' then
        match skipSpaces rest with
        | [] => none
        | d :: r2 =>
          if d = '}' then some (.jobj [], r2)
          else
            match parseFields fuel (d :: r2) with
            | some (fs, r) => some (.jobj fs, r)
            | none => none
      else
        match parseNum (c :: rest) with
        | some (n, r) => some (.jint n, r)
        | none => none

def parseFields : Nat → List Char → Option (List (String × Json) × List Char)
  | 0, _ => none
  | fuel + 1, l =>
    match skipSpaces l with
    | [] => none
    | c :: rest =>
      if c = '"' then
        match parseStrBody rest with
        | none => none
        | some (k, r1) =>
          match skipSpaces r1 with
          | [] => none
          | d :: r2 =>
            if d = ':' then
              match parseVal fuel r2 with
              | none => none
              | some (v, r3) =>
                match skipSpaces r3 with
                | [] => none
                | e :: r4 =>
                  if e = ',' then
                    match parseFields fuel r4 with
                    | none => none
                    | some (fs, r5) => some ((String.mk k, v) :: fs, r5)
                  else if e = '}' then some ([(String.mk k, v)], r4)
                  else none
            else none
      else none

end

/-- `json.loads`: parse one value, allow trailing whitespace only. -/
def loads (s : String) : Option Json :=
  match parseVal (s.data.length + 1) s.data with
  | some (v, r) => if skipSpaces r = [] then some v else none
  | none => none

/-! ## Supporting lemmas -/

/-! ## Digit printing and number parsing -/

theorem strMk_data (s : String) : String.mk s.data = s := rfl

theorem printInt_ofNat (n : Nat) : printInt ((n : Nat) : Int) = printNat n := rfl

theorem printNat_small {n : Nat} (h : n < 10) : printNat n = [Nat.digitChar n] := by
  rw [printNat, printNatInto, dif_pos h]

theorem printNatInto_eq_append (n : Nat) (acc : List Char) :
    printNatInto n acc = printNat n ++ acc := by
  induction n using Nat.strong_induction_on generalizing acc with
  | _ n ih =>
    by_cases h : n < 10
    · rw [printNatInto, dif_pos h, printNat_small h]
      rfl
    · have hd : n / 10 < n := Nat.div_lt_self (by omega) (by omega)
      rw [printNatInto, dif_neg h, ih (n / 10) hd,
        show printNat n = printNatInto n [] from rfl,
        printNatInto, dif_neg h, ih (n / 10) hd, List.append_assoc]
      rfl

theorem printNat_step {n : Nat} (h : ¬ n < 10) :
    printNat n = printNat (n / 10) ++ [Nat.digitChar (n % 10)] := by
  rw [show printNat n = printNatInto n [] from rfl, printNatInto, dif_neg h,
    printNatInto_eq_append]

theorem printNat_ne_nil (n : Nat) : printNat n ≠ [] := by
  by_cases h : n < 10
  · rw [printNat_small h]; simp
  · rw [printNat_step h]; simp

theorem digitChar_isDigit {d : Nat} (h : d < 10) : (Nat.digitChar d).isDigit = true := by
  interval_cases d <;> decide

theorem digitChar_toNat {d : Nat} (h : d < 10) : (Nat.digitChar d).toNat - 48 = d := by
  interval_cases d <;> decide

theorem printNat_all_digits (n : Nat) : ∀ c ∈ printNat n, c.isDigit = true := by
  induction n using Nat.strong_induction_on with
  | _ n ih =>
    by_cases h : n < 10
    · rw [printNat_small h]
      intro c hc
      rw [List.mem_singleton] at hc
      rw [hc]
      exact digitChar_isDigit h
    · rw [printNat_step h]
      intro c hc
      rcases List.mem_append.mp hc with hc | hc
      · exact ih (n / 10) (Nat.div_lt_self (by omega) (by omega)) c hc
      · rw [List.mem_singleton] at hc
        rw [hc]
        exact digitChar_isDigit (Nat.mod_lt n (by omega))

theorem digit_safe (ch : Char) (h : ch.isDigit = true) : ch ≠ '"' ∧ ch ≠ '\\' := by
  refine ⟨fun e => ?_, fun e => ?_⟩ <;> (subst e; exact absurd h (by decide))

theorem isDigit_facts (c : Char) (h : c.isDigit = true) :
    c ≠ '"' ∧ c ≠ '{' ∧ c ≠ '-' ∧ isJsonSpace c = false := by
  refine ⟨fun e => ?_, fun e => ?_, fun e => ?_, ?_⟩
  · subst e; exact absurd h (by decide)
  · subst e; exact absurd h (by decide)
  · subst e; exact absurd h (by decide)
  · cases hs : isJsonSpace c
    · rfl
    · exfalso
      have hc : ((c = ' ' ∨ c = '\t') ∨ c = '\n') ∨ c = '\r' := by
        simpa [isJsonSpace] using hs
      rcases hc with ((rfl | rfl) | rfl) | rfl <;> exact absurd h (by decide)

theorem parseDigits_append (ds : List Char) (hds : ∀ c ∈ ds, c.isDigit = true)
    (acc : Nat) (rest : List Char) (hr : digitHeaded rest = false) :
    parseDigits acc (ds ++ rest)
      = (ds.foldl (fun a c => a * 10 + (c.toNat - 48)) acc, rest) := by
  induction ds generalizing acc with
  | nil =>
    cases rest with
    | nil => simp [parseDigits]
    | cons c r =>
      have hc : c.isDigit = false := hr
      simp [parseDigits, hc]
  | cons d ds ih =>
    have hd : d.isDigit = true := hds d (List.mem_cons_self d ds)
    simp only [List.cons_append, parseDigits, hd, if_pos, List.foldl_cons]
    exact ih (fun c hc => hds c (List.mem_cons_of_mem d hc)) _

theorem foldl_printNat (n : Nat) (acc : Nat) :
    (printNat n).foldl (fun a c => a * 10 + (c.toNat - 48)) acc
      = acc * 10 ^ (printNat n).length + n := by
  induction n using Nat.strong_induction_on generalizing acc with
  | _ n ih =>
    by_cases h : n < 10
    · rw [printNat_small h]
      simp [digitChar_toNat h]
    · rw [printNat_step h, List.foldl_append,
        ih (n / 10) (Nat.div_lt_self (by omega) (by omega)) acc]
      simp only [List.foldl_cons, List.foldl_nil, List.length_append, List.length_cons,
        List.length_nil, Nat.zero_add]
      rw [digitChar_toNat (Nat.mod_lt n (by omega)), pow_succ, ← Nat.mul_assoc]
      omega

theorem parsePosInt_printNat (n : Nat) (rest : List Char)
    (hr : digitHeaded rest = false) :
    parsePosInt (printNat n ++ rest) = some (n, rest) := by
  rcases hpn : printNat n with _ | ⟨d, ds⟩
  · exact absurd hpn (printNat_ne_nil n)
  have hd : d.isDigit = true :=
    printNat_all_digits n d (by rw [hpn]; exact List.mem_cons_self _ _)
  have hds : ∀ c ∈ ds, c.isDigit = true := fun c hc =>
    printNat_all_digits n c (by rw [hpn]; exact List.mem_cons_of_mem d hc)
  have hfold := foldl_printNat n 0
  rw [hpn] at hfold
  simp only [List.foldl_cons, Nat.zero_mul, Nat.zero_add] at hfold
  simp only [List.cons_append, parsePosInt, hd, if_pos]
  rw [parseDigits_append ds hds _ _ hr, hfold]

theorem parseNum_printNat (n : Nat) (rest : List Char)
    (hr : digitHeaded rest = false) :
    parseNum (printNat n ++ rest) = some ((n : Int), rest) := by
  rcases hpn : printNat n with _ | ⟨d, ds⟩
  · exact absurd hpn (printNat_ne_nil n)
  have hd : d.isDigit = true :=
    printNat_all_digits n d (by rw [hpn]; exact List.mem_cons_self _ _)
  obtain ⟨_, _, hm, _⟩ := isDigit_facts d hd
  simp only [List.cons_append, parseNum, if_neg hm]
  rw [← List.cons_append, ← hpn, parsePosInt_printNat n rest hr]
  rfl


theorem listLeads_append (needle t : List Char) :
    listLeads (needle ++ t) needle = true := by
  induction needle with
  | nil => simp [listLeads]
  | cons c cs ih => simp [listLeads, ih]

theorem listHasRun_of_leads (hay needle : List Char)
    (h : listLeads hay needle = true) : listHasRun hay needle = true := by
  cases hay with
  | nil => cases needle with
    | nil => rfl
    | cons d ds => simp [listLeads] at h
  | cons c cs => simp [listHasRun, h]

theorem strHas_append (needle t : String) :
    strHas (needle ++ t) needle = true := by
  apply listHasRun_of_leads
  have : (needle ++ t).data = needle.data ++ t.data := String.data_append needle t
  rw [this]
  exact listLeads_append needle.data t.data

theorem strHas_notFound (f : String) :
    strHas ("Certificate file not found: " ++ f) "Certificate file not found" = true := by
  unfold strHas
  rw [String.data_append]
  apply listHasRun_of_leads
  have e : ("Certificate file not found: ").data
      = ("Certificate file not found").data ++ [':', ' '] := by decide
  rw [e, List.append_assoc]
  exact listLeads_append _ _

/-! ## Field lookups on a freshly built message -/

theorem getKey_msg_id (c : Nat) (t : DateTime) (vs ss : Nat) :
    getKey (create_sample_message c t vs ss) "message_id" = some (.jint (c : Int)) := by
  simp [create_sample_message, getKey]

theorem getKey_msg_timestamp (c : Nat) (t : DateTime) (vs ss : Nat) :
    getKey (create_sample_message c t vs ss) "timestamp" = some (.jstr (strftime t)) := by
  simp [create_sample_message, getKey]

theorem getKey_msg_value (c : Nat) (t : DateTime) (vs ss : Nat) :
    getKey (create_sample_message c t vs ss) "value"
      = some (.jint ((randint vs 0 100 : Nat) : Int)) := by
  simp [create_sample_message, getKey]

theorem getKey_msg_status (c : Nat) (t : DateTime) (vs ss : Nat) :
    getKey (create_sample_message c t vs ss) "status"
      = some (.jstr (randchoice ss ["green", "yellow", "red"])) := by
  simp [create_sample_message, getKey]

/-! ## Lookup/subscript correspondence -/

theorem pyGetItem_obj_cases (fields : List (String × Json)) (k : String) :
    (∃ v, pyGetItem (.jobj fields) k = .found v ∧ getKey (.jobj fields) k = some v) ∨
    (pyGetItem (.jobj fields) k = .keyErr k ∧ getKey (.jobj fields) k = none) := by
  cases h : fields.reverse.find? (fun kv => kv.1 == k) with
  | none => right; constructor <;> simp [pyGetItem, getKey, h]
  | some kv => left; exact ⟨kv.2, by simp [pyGetItem, h], by simp [getKey, h]⟩

theorem pyGetItem_of_getKey {fields : List (String × Json)} {k : String} {v : Json}
    (h : getKey (.jobj fields) k = some v) : pyGetItem (.jobj fields) k = .found v := by
  rcases pyGetItem_obj_cases fields k with ⟨w, hw, hg⟩ | ⟨_, hg⟩
  · rw [hg] at h; injection h with h; rw [← h]; exact hw
  · rw [hg] at h; exact absurd h (by simp)

theorem pyGetItem_of_getKey_none {fields : List (String × Json)} {k : String}
    (h : getKey (.jobj fields) k = none) : pyGetItem (.jobj fields) k = .keyErr k := by
  rcases pyGetItem_obj_cases fields k with ⟨w, _, hg⟩ | ⟨hw, _⟩
  · rw [hg] at h; exact absurd h (by simp)
  · exact hw

/-! ## Parser steps over serializer output -/

theorem skipSpaces_space (l : List Char) : skipSpaces (' ' :: l) = skipSpaces l := by
  simp [skipSpaces, isJsonSpace]

theorem skipSpaces_cons (c : Char) (l : List Char) (h : isJsonSpace c = false) :
    skipSpaces (c :: l) = c :: l := by
  simp [skipSpaces, h]

theorem parseStrBody_append (cs : List Char) (rest : List Char)
    (h : ∀ c ∈ cs, c ≠ '"' ∧ c ≠ '\\') :
    parseStrBody (cs ++ '"' :: rest) = some (cs, rest) := by
  induction cs with
  | nil =>
    rw [List.nil_append, parseStrBody.eq_def]
    simp
  | cons c cs ih =>
    obtain ⟨h1, h2⟩ := h c (List.mem_cons_self c cs)
    have ih2 := ih (fun d hd => h d (List.mem_cons_of_mem c hd))
    rw [List.cons_append, parseStrBody.eq_def]
    simp [h1, h2, ih2]

theorem parseVal_strLit (fuel : Nat) (cs rest : List Char)
    (h : ∀ c ∈ cs, c ≠ '"' ∧ c ≠ '\\') :
    parseVal (fuel + 1) (' ' :: '"' :: (cs ++ '"' :: rest))
      = some (.jstr (String.mk cs), rest) := by
  have hskip : skipSpaces (' ' :: '"' :: (cs ++ '"' :: rest)) = '"' :: (cs ++ '"' :: rest) := by
    rw [skipSpaces_space]
    exact skipSpaces_cons _ _ (by decide)
  simp [parseVal, hskip, parseStrBody_append cs rest h]

theorem parseVal_intLit (fuel : Nat) (n : Nat) (rest : List Char)
    (hr : digitHeaded rest = false) :
    parseVal (fuel + 1) (' ' :: (printNat n ++ rest)) = some (.jint (n : Int), rest) := by
  rcases hpn : printNat n with _ | ⟨d, ds⟩
  · exact absurd hpn (printNat_ne_nil n)
  have hd : d.isDigit = true :=
    printNat_all_digits n d (by rw [hpn]; exact List.mem_cons_self _ _)
  obtain ⟨hq, hb, hm, hsp⟩ := isDigit_facts d hd
  have hnum := parseNum_printNat n rest hr
  rw [hpn, List.cons_append] at hnum
  have hskip : skipSpaces (' ' :: d :: (ds ++ rest)) = d :: (ds ++ rest) := by
    rw [skipSpaces_space]
    exact skipSpaces_cons _ _ hsp
  simp only [List.cons_append, parseVal, hskip, if_neg hq, if_neg hb, hnum]

theorem parseVal_obj (fuel : Nat) (l : List Char) (fs : List (String × Json))
    (rest : List Char) (h : parseFields fuel ('"' :: l) = some (fs, rest)) :
    parseVal (fuel + 1) ('{' :: '"' :: l) = some (.jobj fs, rest) := by
  have h1 : skipSpaces ('{' :: '"' :: l) = '{' :: '"' :: l :=
    skipSpaces_cons _ _ (by decide)
  have h2 : skipSpaces ('"' :: l) = '"' :: l :=
    skipSpaces_cons _ _ (by decide)
  simp [parseVal, h1, h2, h]

theorem parseFields_space (fuel : Nat) (l : List Char) :
    parseFields (fuel + 1) (' ' :: l) = parseFields (fuel + 1) l := by
  simp [parseFields, skipSpaces_space]

theorem parseFields_cons (fuel : Nat) (k : String) (valChars more : List Char)
    (v : Json) (fs : List (String × Json)) (rest : List Char)
    (hk : ∀ ch ∈ k.data, ch ≠ '"' ∧ ch ≠ '\\')
    (hv : parseVal fuel (' ' :: (valChars ++ ',' :: ' ' :: more))
      = some (v, ',' :: ' ' :: more))
    (hrest : parseFields fuel (' ' :: more) = some (fs, rest)) :
    parseFields (fuel + 1)
        ('"' :: (k.data ++ '"' :: ':' :: ' ' :: (valChars ++ ',' :: ' ' :: more)))
      = some ((k, v) :: fs, rest) := by
  have h1 : skipSpaces ('"' :: (k.data ++ '"' :: ':' :: ' ' :: (valChars ++ ',' :: ' ' :: more)))
      = '"' :: (k.data ++ '"' :: ':' :: ' ' :: (valChars ++ ',' :: ' ' :: more)) :=
    skipSpaces_cons _ _ (by decide)
  have hstr := parseStrBody_append k.data
    (':' :: ' ' :: (valChars ++ ',' :: ' ' :: more)) hk
  have h2 : skipSpaces (':' :: ' ' :: (valChars ++ ',' :: ' ' :: more))
      = ':' :: ' ' :: (valChars ++ ',' :: ' ' :: more) :=
    skipSpaces_cons _ _ (by decide)
  have h3 : skipSpaces (',' :: ' ' :: more) = ',' :: ' ' :: more :=
    skipSpaces_cons _ _ (by decide)
  simp [parseFields, h1, hstr, h2, hv, h3, hrest, strMk_data]

theorem parseFields_last (fuel : Nat) (k : String) (valChars : List Char)
    (v : Json) (rest : List Char)
    (hk : ∀ ch ∈ k.data, ch ≠ '"' ∧ ch ≠ '\\')
    (hv : parseVal fuel (' ' :: (valChars ++ '}' :: rest)) = some (v, '}' :: rest)) :
    parseFields (fuel + 1)
        ('"' :: (k.data ++ '"' :: ':' :: ' ' :: (valChars ++ '}' :: rest)))
      = some ([(k, v)], rest) := by
  have h1 : skipSpaces ('"' :: (k.data ++ '"' :: ':' :: ' ' :: (valChars ++ '}' :: rest)))
      = '"' :: (k.data ++ '"' :: ':' :: ' ' :: (valChars ++ '}' :: rest)) :=
    skipSpaces_cons _ _ (by decide)
  have hstr := parseStrBody_append k.data (':' :: ' ' :: (valChars ++ '}' :: rest)) hk
  have h2 : skipSpaces (':' :: ' ' :: (valChars ++ '}' :: rest))
      = ':' :: ' ' :: (valChars ++ '}' :: rest) :=
    skipSpaces_cons _ _ (by decide)
  have h3 : skipSpaces ('}' :: rest) = '}' :: rest :=
    skipSpaces_cons _ _ (by decide)
  simp [parseFields, h1, hstr, h2, hv, h3, strMk_data]

theorem parseFields_cons_int (fuel : Nat) (k : String) (n : Nat) (more : List Char)
    (fs : List (String × Json)) (rest : List Char)
    (hk : ∀ ch ∈ k.data, ch ≠ '"' ∧ ch ≠ '\\')
    (hrest : parseFields (fuel + 1) (' ' :: more) = some (fs, rest)) :
    parseFields (fuel + 2)
        ('"' :: (k.data ++ '"' :: ':' :: ' ' :: (printNat n ++ ',' :: ' ' :: more)))
      = some ((k, .jint (n : Int)) :: fs, rest) :=
  parseFields_cons (fuel + 1) k (printNat n) more (.jint (n : Int)) fs rest hk
    (parseVal_intLit fuel n (',' :: ' ' :: more) (by simp [digitHeaded])) hrest

theorem parseFields_cons_str (fuel : Nat) (k s : String) (more : List Char)
    (fs : List (String × Json)) (rest : List Char)
    (hk : ∀ ch ∈ k.data, ch ≠ '"' ∧ ch ≠ '\\')
    (hs : ∀ ch ∈ s.data, ch ≠ '"' ∧ ch ≠ '\\')
    (hrest : parseFields (fuel + 1) (' ' :: more) = some (fs, rest)) :
    parseFields (fuel + 2)
        ('"' :: (k.data ++ '"' :: ':' :: ' ' :: '"' :: (s.data ++ '"' :: ',' :: ' ' :: more)))
      = some ((k, .jstr s) :: fs, rest) := by
  have hv : parseVal (fuel + 1) (' ' :: (('"' :: (s.data ++ ['"'])) ++ ',' :: ' ' :: more))
      = some (.jstr s, ',' :: ' ' :: more) := by
    have := parseVal_strLit fuel s.data (',' :: ' ' :: more) hs
    simpa [List.append_assoc, strMk_data] using this
  have := parseFields_cons (fuel + 1) k ('"' :: (s.data ++ ['"'])) more (.jstr s)
    fs rest hk hv hrest
  simpa [List.append_assoc] using this

theorem parseFields_last_str (fuel : Nat) (k s : String) (rest : List Char)
    (hk : ∀ ch ∈ k.data, ch ≠ '"' ∧ ch ≠ '\\')
    (hs : ∀ ch ∈ s.data, ch ≠ '"' ∧ ch ≠ '\\') :
    parseFields (fuel + 2)
        ('"' :: (k.data ++ '"' :: ':' :: ' ' :: '"' :: (s.data ++ '"' :: '}' :: rest)))
      = some ([(k, .jstr s)], rest) := by
  have hv : parseVal (fuel + 1) (' ' :: (('"' :: (s.data ++ ['"'])) ++ '}' :: rest))
      = some (.jstr s, '}' :: rest) := by
    have := parseVal_strLit fuel s.data ('}' :: rest) hs
    simpa [List.append_assoc, strMk_data] using this
  have := parseFields_last (fuel + 1) k ('"' :: (s.data ++ ['"'])) (.jstr s) rest hk hv
  simpa [List.append_assoc] using this

/-! ## Safety of the strings the producer serializes -/

theorem padNat_safe (w n : Nat) : ∀ ch ∈ padNat w n, ch ≠ '"' ∧ ch ≠ '\\' := by
  intro ch hm
  rcases List.mem_append.mp hm with h | h
  · rw [List.eq_of_mem_replicate h]
    decide
  · exact digit_safe ch (printNat_all_digits n ch h)

theorem strftime_safe (t : DateTime) :
    ∀ ch ∈ (strftime t).data, ch ≠ '"' ∧ ch ≠ '\\' := by
  intro ch hm
  have hm0 : ch ∈ padNat 4 t.year ++ '-' :: padNat 2 t.month ++ '-' :: padNat 2 t.day ++
      ' ' :: padNat 2 t.hour ++ ':' :: padNat 2 t.minute ++ ':' :: padNat 2 t.second := hm
  rcases List.mem_append.mp hm0 with h5 | h6
  · rcases List.mem_append.mp h5 with h4 | h5b
    · rcases List.mem_append.mp h4 with h3 | h4b
      · rcases List.mem_append.mp h3 with h2 | h3b
        · rcases List.mem_append.mp h2 with h1 | h2b
          · exact padNat_safe _ _ ch h1
          · rcases List.mem_cons.mp h2b with rfl | h
            · decide
            · exact padNat_safe _ _ ch h
        · rcases List.mem_cons.mp h3b with rfl | h
          · decide
          · exact padNat_safe _ _ ch h
      · rcases List.mem_cons.mp h4b with rfl | h
        · decide
        · exact padNat_safe _ _ ch h
    · rcases List.mem_cons.mp h5b with rfl | h
      · decide
      · exact padNat_safe _ _ ch h
  · rcases List.mem_cons.mp h6 with rfl | h
    · decide
    · exact padNat_safe _ _ ch h

theorem randchoice_status_safe (ss : Nat) :
    ∀ ch ∈ (randchoice ss ["green", "yellow", "red"]).data, ch ≠ '"' ∧ ch ≠ '\\' := by
  intro ch hm
  have h3 : ss % 3 = 0 ∨ ss % 3 = 1 ∨ ss % 3 = 2 := by omega
  rcases h3 with h | h | h <;>
    rw [randchoice, show (["green", "yellow", "red"] : List String).length = 3 from rfl,
      h] at hm
  · exact (by decide : ∀ c ∈ ("green" : String).data, c ≠ '"' ∧ c ≠ '\\') ch hm
  · exact (by decide : ∀ c ∈ ("yellow" : String).data, c ≠ '"' ∧ c ≠ '\\') ch hm
  · exact (by decide : ∀ c ∈ ("red" : String).data, c ≠ '"' ∧ c ≠ '\\') ch hm

/-- The parser reconstructs a freshly built message from its serialized
bytes at any recursion budget of at least 6. -/
theorem parseVal_dumps_message (f : Nat) (c : Nat) (t : DateTime) (vs ss : Nat) :
    parseVal (f + 6) (dumpsVal (create_sample_message c t vs ss))
      = some (create_sample_message c t vs ss, []) := by
  have hk1 : ∀ ch ∈ ("message_id" : String).data, ch ≠ '"' ∧ ch ≠ '\\' := by decide
  have hk2 : ∀ ch ∈ ("timestamp" : String).data, ch ≠ '"' ∧ ch ≠ '\\' := by decide
  have hk3 : ∀ ch ∈ ("value" : String).data, ch ≠ '"' ∧ ch ≠ '\\' := by decide
  have hk4 : ∀ ch ∈ ("status" : String).data, ch ≠ '"' ∧ ch ≠ '\\' := by decide
  have hts := strftime_safe t
  have hst := randchoice_status_safe ss
  have h4 := parseFields_last_str f "status"
    (randchoice ss ["green", "yellow", "red"]) [] hk4 hst
  have h3 := parseFields_cons_int (f + 1) "value" (randint vs 0 100) _ _ _ hk3
    ((parseFields_space (f + 1) _).trans h4)
  have h2 := parseFields_cons_str (f + 2) "timestamp" (strftime t) _ _ _ hk2 hts
    ((parseFields_space (f + 2) _).trans h3)
  have h1 := parseFields_cons_int (f + 3) "message_id" c _ _ _ hk1
    ((parseFields_space (f + 3) _).trans h2)
  have hobj := parseVal_obj (f + 5) _ _ _ h1
  simpa [create_sample_message, dumpsVal, dumpsFields, printInt_ofNat] using hobj

end Mqtt

open Mqtt

/-- C4: for every inbound envelope whose payload is not a valid JSON
record (UTF-8 decode failure or JSON parse failure), `on_message` logs an
error-level entry and returns without raising, and the connection state
is unchanged by the receive step. -/
theorem C4_malformed_payload (st : ConnectionState) (topic rt raw : String)
    (p : ParsedPayload)
    (h : (∃ e, p = .decodeErr e) ∨ (∃ s, p = .jsonErr s)) :
    (consumer_step st topic rt raw p).1 = st ∧
    (on_message topic rt raw p).raised = false ∧
    ∃ l ∈ (on_message topic rt raw p).logs, l.level = .error := by
  rcases h with ⟨e, rfl⟩ | ⟨s, rfl⟩
  · exact ⟨rfl, rfl, ⟨.error, "Error processing message: " ++ e⟩,
      by simp [on_message, excTail], rfl⟩
  · exact ⟨rfl, rfl, ⟨.error, "Error decoding JSON message"⟩,
      by simp [on_message], rfl⟩

/-- Witness for C4 at a concrete garbled payload. -/
theorem C4_malformed_payload_witness :
    (consumer_step .Connected "kobayashi/signals/test" "2026-10-12 00:00:00" "xx"
      (.jsonErr "xx")).1 = .Connected ∧
    (on_message "kobayashi/signals/test" "2026-10-12 00:00:00" "xx"
      (.jsonErr "xx")).raised = false ∧
    ∃ l ∈ (on_message "kobayashi/signals/test" "2026-10-12 00:00:00" "xx"
      (.jsonErr "xx")).logs, l.level = .error :=
  C4_malformed_payload .Connected "kobayashi/signals/test" "2026-10-12 00:00:00" "xx"
    (.jsonErr "xx") (Or.inr ⟨"xx", rfl⟩)

/-- C5: for every parsed record (dict) lacking at least one required
field, `on_message` logs "Missing expected key" with the name of a
specific missing field and returns without raising. -/
theorem C5_missing_field (topic rt raw : String) (fields : List (String × Json))
    (h : ∃ k ∈ ["message_id", "timestamp", "value", "status"],
      getKey (.jobj fields) k = none) :
    (on_message topic rt raw (.ok (.jobj fields))).raised = false ∧
    ∃ k, k ∈ ["message_id", "timestamp", "value", "status"] ∧
      getKey (Json.jobj fields) k = none ∧
      (⟨.error, missingKeyText k⟩ : LogEvent) ∈
        (on_message topic rt raw (.ok (.jobj fields))).logs := by
  rcases pyGetItem_obj_cases fields "message_id" with ⟨mid, hm, hgm⟩ | ⟨hm, hgm⟩
  · rcases pyGetItem_obj_cases fields "timestamp" with ⟨ts, ht, hgt⟩ | ⟨ht, hgt⟩
    · rcases pyGetItem_obj_cases fields "value" with ⟨v, hv, hgv⟩ | ⟨hv, hgv⟩
      · rcases pyGetItem_obj_cases fields "status" with ⟨sv, hs, hgs⟩ | ⟨hs, hgs⟩
        · exfalso
          rcases h with ⟨k, hk, hnone⟩
          simp only [List.mem_cons, List.not_mem_nil, or_false] at hk
          rcases hk with rfl | rfl | rfl | rfl <;> simp_all
        · refine ⟨?_, "status", by simp, hgs, ?_⟩ <;>
            simp [on_message, hm, ht, hv, hs, keyErrorTail]
      · refine ⟨?_, "value", by simp, hgv, ?_⟩ <;>
          simp [on_message, hm, ht, hv, keyErrorTail]
    · refine ⟨?_, "timestamp", by simp, hgt, ?_⟩ <;>
        simp [on_message, hm, ht, keyErrorTail]
  · refine ⟨?_, "message_id", by simp, hgm, ?_⟩ <;>
      simp [on_message, hm, keyErrorTail]

/-- Witness for C5 at a record missing `status`. -/
theorem C5_missing_field_witness :
    (on_message "t" "rt" "raw" (.ok (.jobj [("message_id", .jint 1),
      ("timestamp", .jstr "2026-10-12 00:00:00"), ("value", .jint 42)]))).raised = false ∧
    ∃ k, k ∈ ["message_id", "timestamp", "value", "status"] ∧
      getKey (Json.jobj [("message_id", .jint 1),
        ("timestamp", .jstr "2026-10-12 00:00:00"), ("value", .jint 42)]) k = none ∧
      (⟨.error, missingKeyText k⟩ : LogEvent) ∈
        (on_message "t" "rt" "raw" (.ok (.jobj [("message_id", .jint 1),
          ("timestamp", .jstr "2026-10-12 00:00:00"), ("value", .jint 42)]))).logs :=
  C5_missing_field "t" "rt" "raw" _ ⟨"status", by simp, by simp [getKey]⟩

/-- C6: for every fully valid record, `on_message` emits exactly the six
info lines with the message contents, followed by the distinguished
warning-level alert line if and only if the status value equals the
string "red"; it returns without raising and produces no effect beyond
these log lines (the handler's entire output is its log list). -/
theorem C6_valid_message (topic rt raw : String) (fields : List (String × Json))
    (mid ts v st : Json)
    (hm : getKey (.jobj fields) "message_id" = some mid)
    (ht : getKey (.jobj fields) "timestamp" = some ts)
    (hv : getKey (.jobj fields) "value" = some v)
    (hs : getKey (.jobj fields) "status" = some st) :
    (on_message topic rt raw (.ok (.jobj fields))).logs
      = [⟨.info, msgHeader topic⟩, ⟨.info, "Message ID: " ++ pyStr mid⟩,
         ⟨.info, "Message timestamp: " ++ pyStr ts⟩, ⟨.info, "Received at: " ++ rt⟩,
         ⟨.info, "Value: " ++ pyStr v⟩, ⟨.info, "Status: " ++ pyStr st⟩]
        ++ (if pyEqRedStr st then [⟨.warning, "ALERT: Red status detected!"⟩] else []) ∧
    (on_message topic rt raw (.ok (.jobj fields))).raised = false ∧
    ((⟨.warning, "ALERT: Red status detected!"⟩ : LogEvent) ∈
        (on_message topic rt raw (.ok (.jobj fields))).logs ↔ pyEqRedStr st = true) := by
  have pm := pyGetItem_of_getKey hm
  have pt := pyGetItem_of_getKey ht
  have pv := pyGetItem_of_getKey hv
  have ps := pyGetItem_of_getKey hs
  cases hr : pyEqRedStr st <;>
    simp [on_message, pm, pt, pv, ps, hr, msgHeader, LogEvent.mk.injEq]

/-- Witness for C6 at a concrete red-status record. -/
theorem C6_valid_message_witness :
    (on_message "t" "rt" "raw" (.ok (.jobj [("message_id", .jint 7),
      ("timestamp", .jstr "ts"), ("value", .jint 3), ("status", .jstr "red")]))).logs
      = [⟨.info, msgHeader "t"⟩, ⟨.info, "Message ID: " ++ pyStr (.jint 7)⟩,
         ⟨.info, "Message timestamp: " ++ pyStr (.jstr "ts")⟩, ⟨.info, "Received at: rt"⟩,
         ⟨.info, "Value: " ++ pyStr (.jint 3)⟩, ⟨.info, "Status: " ++ pyStr (.jstr "red")⟩]
        ++ (if pyEqRedStr (.jstr "red") then [⟨.warning, "ALERT: Red status detected!"⟩]
            else []) ∧
    (on_message "t" "rt" "raw" (.ok (.jobj [("message_id", .jint 7),
      ("timestamp", .jstr "ts"), ("value", .jint 3),
      ("status", .jstr "red")]))).raised = false ∧
    ((⟨.warning, "ALERT: Red status detected!"⟩ : LogEvent) ∈
        (on_message "t" "rt" "raw" (.ok (.jobj [("message_id", .jint 7),
          ("timestamp", .jstr "ts"), ("value", .jint 3),
          ("status", .jstr "red")]))).logs ↔ pyEqRedStr (.jstr "red") = true) :=
  C6_valid_message "t" "rt" "raw" _ (.jint 7) (.jstr "ts") (.jint 3) (.jstr "red")
    (by simp [getKey]) (by simp [getKey]) (by simp [getKey]) (by simp [getKey])

/-- C7: on success code 0 the subscriber's connect callback moves the
session to Connected and issues exactly one subscribe request for the
configured topic at QoS 1; on any other code it moves to Failed, issues
no subscribe, and logs the failure reason. -/
theorem C7_on_connect (broker topic : String) (rc : Nat) :
    (rc = 0 → (subscriber_on_connect broker topic rc).state = .Connected ∧
      (subscriber_on_connect broker topic rc).subscribes = [(topic, 1)]) ∧
    (rc ≠ 0 → (subscriber_on_connect broker topic rc).state = .Failed ∧
      (subscriber_on_connect broker topic rc).subscribes = [] ∧
      (⟨.error, "Failed to connect, return code: " ++ String.mk (printNat rc)⟩ : LogEvent)
        ∈ (subscriber_on_connect broker topic rc).logs) := by
  constructor
  · intro h; subst h; exact ⟨rfl, rfl⟩
  · intro h; simp [subscriber_on_connect, h]

/-- Witness for C7 at success code 0 and failure code 5. -/
theorem C7_on_connect_witness :
    ((subscriber_on_connect "localhost" "kobayashi/signals/test" 0).state = .Connected ∧
      (subscriber_on_connect "localhost" "kobayashi/signals/test" 0).subscribes
        = [("kobayashi/signals/test", 1)]) ∧
    ((subscriber_on_connect "localhost" "kobayashi/signals/test" 5).state = .Failed ∧
      (subscriber_on_connect "localhost" "kobayashi/signals/test" 5).subscribes = [] ∧
      (⟨.error, "Failed to connect, return code: " ++ String.mk (printNat 5)⟩ : LogEvent)
        ∈ (subscriber_on_connect "localhost" "kobayashi/signals/test" 5).logs) :=
  ⟨(C7_on_connect "localhost" "kobayashi/signals/test" 0).1 rfl,
   (C7_on_connect "localhost" "kobayashi/signals/test" 5).2 (by decide)⟩

/-- C10: validation is interleaved with output in the fixed access order
message_id, timestamp, value, status and short-circuits at the first
missing field: the info lines for the fields before it (and the header,
and the "Received at" line once timestamp was read) are already in the
log, exactly one error names that first missing field, and fields after
it are never consulted (each case's log list is fully determined without
any hypothesis on the later fields). -/
theorem C10_first_missing (topic rt raw : String) (fields : List (String × Json)) :
    (getKey (.jobj fields) "message_id" = none →
      (on_message topic rt raw (.ok (.jobj fields))).logs
        = ⟨.info, msgHeader topic⟩ :: keyErrorTail (.jobj fields) "message_id" ∧
      (on_message topic rt raw (.ok (.jobj fields))).raised = false) ∧
    (∀ mid, getKey (.jobj fields) "message_id" = some mid →
      getKey (.jobj fields) "timestamp" = none →
      (on_message topic rt raw (.ok (.jobj fields))).logs
        = [⟨.info, msgHeader topic⟩, ⟨.info, "Message ID: " ++ pyStr mid⟩]
          ++ keyErrorTail (.jobj fields) "timestamp" ∧
      (on_message topic rt raw (.ok (.jobj fields))).raised = false) ∧
    (∀ mid ts, getKey (.jobj fields) "message_id" = some mid →
      getKey (.jobj fields) "timestamp" = some ts →
      getKey (.jobj fields) "value" = none →
      (on_message topic rt raw (.ok (.jobj fields))).logs
        = [⟨.info, msgHeader topic⟩, ⟨.info, "Message ID: " ++ pyStr mid⟩,
           ⟨.info, "Message timestamp: " ++ pyStr ts⟩, ⟨.info, "Received at: " ++ rt⟩]
          ++ keyErrorTail (.jobj fields) "value" ∧
      (on_message topic rt raw (.ok (.jobj fields))).raised = false) ∧
    (∀ mid ts v, getKey (.jobj fields) "message_id" = some mid →
      getKey (.jobj fields) "timestamp" = some ts →
      getKey (.jobj fields) "value" = some v →
      getKey (.jobj fields) "status" = none →
      (on_message topic rt raw (.ok (.jobj fields))).logs
        = [⟨.info, msgHeader topic⟩, ⟨.info, "Message ID: " ++ pyStr mid⟩,
           ⟨.info, "Message timestamp: " ++ pyStr ts⟩, ⟨.info, "Received at: " ++ rt⟩,
           ⟨.info, "Value: " ++ pyStr v⟩]
          ++ keyErrorTail (.jobj fields) "status" ∧
      (on_message topic rt raw (.ok (.jobj fields))).raised = false) := by
  refine ⟨fun h1 => ?_, fun mid h1 h2 => ?_, fun mid ts h1 h2 h3 => ?_,
    fun mid ts v h1 h2 h3 h4 => ?_⟩
  · have p1 := pyGetItem_of_getKey_none h1
    constructor <;> simp [on_message, p1]
  · have p1 := pyGetItem_of_getKey h1
    have p2 := pyGetItem_of_getKey_none h2
    constructor <;> simp [on_message, p1, p2]
  · have p1 := pyGetItem_of_getKey h1
    have p2 := pyGetItem_of_getKey h2
    have p3 := pyGetItem_of_getKey_none h3
    constructor <;> simp [on_message, p1, p2, p3]
  · have p1 := pyGetItem_of_getKey h1
    have p2 := pyGetItem_of_getKey h2
    have p3 := pyGetItem_of_getKey h3
    have p4 := pyGetItem_of_getKey_none h4
    constructor <;> simp [on_message, p1, p2, p3, p4]

/-- Witness for C10 at a record whose first missing field is `value`
(`status` also absent, but only `value` is reported). -/
theorem C10_first_missing_witness :
    (on_message "t" "rt" "raw" (.ok (.jobj [("message_id", .jint 1),
      ("timestamp", .jstr "ts")]))).logs
      = [⟨.info, msgHeader "t"⟩, ⟨.info, "Message ID: " ++ pyStr (.jint 1)⟩,
         ⟨.info, "Message timestamp: " ++ pyStr (.jstr "ts")⟩, ⟨.info, "Received at: rt"⟩]
        ++ keyErrorTail (.jobj [("message_id", .jint 1), ("timestamp", .jstr "ts")]) "value" ∧
    (on_message "t" "rt" "raw" (.ok (.jobj [("message_id", .jint 1),
      ("timestamp", .jstr "ts")]))).raised = false :=
  (C10_first_missing "t" "rt" "raw" _).2.2.1 (.jint 1) (.jstr "ts")
    (by simp [getKey]) (by simp [getKey]) (by simp [getKey])

/-- C9: whatever exception ends the main loop (user interrupt or any
other error) and whether or not `disconnect` itself fails, no exception
escapes `main` — both processes return 0 — the shutdown sequence runs on
every exit path (`loop_stop` for the publisher, and exactly one
`disconnect` call for both), and a disconnect failure is logged rather
than propagated. -/
theorem C9_shutdown (fate : Exc) (dFail : Option String) :
    ((publisher_exit fate dFail).1 = .ok 0 ∧
     (publisher_exit fate dFail).2.loopStopped = true ∧
     (publisher_exit fate dFail).2.disconnectCalls = 1 ∧
     (∀ m, dFail = some m →
       (⟨.error, "Disconnect failed: " ++ m⟩ : LogEvent) ∈
         (publisher_exit fate dFail).2.logs)) ∧
    ((subscriber_exit fate dFail).1 = .ok 0 ∧
     (subscriber_exit fate dFail).2.disconnectCalls = 1 ∧
     (∀ m, dFail = some m →
       (⟨.error, "Disconnect failed: " ++ m⟩ : LogEvent) ∈
         (subscriber_exit fate dFail).2.logs)) := by
  cases fate <;> cases dFail <;>
    simp [publisher_exit, subscriber_exit, publisher_tail, subscriber_tail, pySeq,
      pyTryFinally, pyCatchAll, pyCatchException, pyRaise, pyPure, pyLog,
      client_loop_stop, client_disconnect, runState0]

/-- Witness for C9: a runtime error ends the loop and `disconnect`
fails with "io" — both exits are still 0 and the failure is logged. -/
theorem C9_shutdown_witness :
    (publisher_exit (.runtime "boom") (some "io")).1 = .ok 0 ∧
    (publisher_exit (.runtime "boom") (some "io")).2.loopStopped = true ∧
    (publisher_exit (.runtime "boom") (some "io")).2.disconnectCalls = 1 ∧
    (⟨.error, "Disconnect failed: " ++ "io"⟩ : LogEvent) ∈
      (publisher_exit (.runtime "boom") (some "io")).2.logs ∧
    (subscriber_exit (.runtime "boom") (some "io")).1 = .ok 0 ∧
    (subscriber_exit (.runtime "boom") (some "io")).2.disconnectCalls = 1 :=
  have h := C9_shutdown (.runtime "boom") (some "io")
  ⟨h.1.1, h.1.2.1, h.1.2.2.1, h.1.2.2.2 "io" rfl, h.2.1, h.2.2.1⟩

/-- C1 counterexample: on a filesystem where the CA certificate exists but
is unreadable and the client certificate does not exist, the check fails
(as the claim demands) but no log line contains "Certificate file not
found" — the loop stopped at the unreadable CA file — refuting the
claim's final conjunct. -/
theorem C1_counterexample :
    (fsUnreadableCa pubCertPath).isfile = false ∧
    (check_cert_files fsUnreadableCa pubCaPath pubCertPath pubKeyPath).1 = false ∧
    (main_setup fsUnreadableCa pubCaPath pubCertPath pubKeyPath true true).exitCode = some 1 ∧
    ((main_setup fsUnreadableCa pubCaPath pubCertPath pubKeyPath true true).logs.any
      (fun l => strHas l.text "Certificate file not found")) = false := by
  decide

/-- C1 (amended): if any of the three credential files is missing or
unreadable, `check_cert_files` returns failure, `main` exits with code 1,
and no connection attempt is made; and when the first failing file in the
check order (ca-cert, then cert, then key) fails because it does not
exist, the log contains "Certificate file not found". -/
theorem C1_credential_check (fs : String → FileStat) (ca cert key : String)
    (tlsOk connectOk : Bool)
    (h : (fs ca).isfile = false ∨ (fs ca).readable = false ∨
         (fs cert).isfile = false ∨ (fs cert).readable = false ∨
         (fs key).isfile = false ∨ (fs key).readable = false) :
    (check_cert_files fs ca cert key).1 = false ∧
    (main_setup fs ca cert key tlsOk connectOk).exitCode = some 1 ∧
    (main_setup fs ca cert key tlsOk connectOk).connectAttempts = 0 ∧
    (((fs ca).isfile = false ∨
      ((fs ca).isfile = true ∧ (fs ca).readable = true ∧ (fs cert).isfile = false) ∨
      ((fs ca).isfile = true ∧ (fs ca).readable = true ∧ (fs cert).isfile = true ∧
        (fs cert).readable = true ∧ (fs key).isfile = false)) →
      ((main_setup fs ca cert key tlsOk connectOk).logs.any
        (fun l => strHas l.text "Certificate file not found")) = true) := by
  cases h1 : (fs ca).isfile <;> cases h2 : (fs ca).readable <;>
    cases h3 : (fs cert).isfile <;> cases h4 : (fs cert).readable <;>
    cases h5 : (fs key).isfile <;> cases h6 : (fs key).readable <;>
    simp_all [check_cert_files, check_cert_files_loop, main_setup, strHas_notFound]

/-- Witness for C1_credential_check at a concrete input: a filesystem with
no files and the publisher's default paths. -/
theorem C1_credential_check_witness :
    (check_cert_files fsAllMissing pubCaPath pubCertPath pubKeyPath).1 = false ∧
    (main_setup fsAllMissing pubCaPath pubCertPath pubKeyPath true true).exitCode = some 1 ∧
    (main_setup fsAllMissing pubCaPath pubCertPath pubKeyPath true true).connectAttempts = 0 ∧
    (((fsAllMissing pubCaPath).isfile = false ∨
      ((fsAllMissing pubCaPath).isfile = true ∧ (fsAllMissing pubCaPath).readable = true ∧
        (fsAllMissing pubCertPath).isfile = false) ∨
      ((fsAllMissing pubCaPath).isfile = true ∧ (fsAllMissing pubCaPath).readable = true ∧
        (fsAllMissing pubCertPath).isfile = true ∧ (fsAllMissing pubCertPath).readable = true ∧
        (fsAllMissing pubKeyPath).isfile = false)) →
      ((main_setup fsAllMissing pubCaPath pubCertPath pubKeyPath true true).logs.any
        (fun l => strHas l.text "Certificate file not found")) = true) :=
  C1_credential_check fsAllMissing pubCaPath pubCertPath pubKeyPath true true (Or.inl rfl)

/-- Helper for C2: the message ids of `n` cycles started at counter value
`count` are `count+1, count+2, ..., count+n`. -/
theorem producer_ids_from (clock : Nat → DateTime) (vs ss : Nat → Nat) (n count : Nat) :
    (producer_messages clock vs ss count n).map (fun m => getKey m "message_id")
      = (List.range' (count + 1) n).map (fun i => some (.jint (i : Int))) := by
  induction n generalizing count with
  | zero => simp [producer_messages]
  | succ n ih =>
    rw [List.range'_succ]
    simp only [producer_messages, List.map_cons, getKey_msg_id]
    exact congrArg _ (ih (count + 1))

/-- C2: across one producer run, the `message_id` values of successive
publish cycles are exactly 1, 2, 3, ..., n — strictly increasing by 1
starting at 1, with no gaps or repeats (`List.range' 1 n` is that
sequence) — for any run length and any behavior of the clock and random
collaborators. -/
theorem C2_message_id_sequence (clock : Nat → DateTime) (vs ss : Nat → Nat) (n : Nat) :
    (producer_messages clock vs ss 0 n).map (fun m => getKey m "message_id")
      = (List.range' 1 n).map (fun i => some (.jint (i : Int))) :=
  producer_ids_from clock vs ss n 0

/-- C3: every message built by `create_sample_message` carries exactly the
four keys `message_id`, `timestamp`, `value`, `status` in that order; its
`value` is an integer between 0 and 100; its `status` is one of "green",
"yellow", "red"; its `message_id` is the cycle counter and its
`timestamp` a string. -/
theorem C3_message_shape (c : Nat) (t : DateTime) (vs ss : Nat) :
    objKeys (create_sample_message c t vs ss)
      = ["message_id", "timestamp", "value", "status"] ∧
    getKey (create_sample_message c t vs ss) "message_id" = some (.jint (c : Int)) ∧
    (∃ tstr, getKey (create_sample_message c t vs ss) "timestamp" = some (.jstr tstr)) ∧
    (∃ v : Nat, getKey (create_sample_message c t vs ss) "value" = some (.jint (v : Int)) ∧
      0 ≤ v ∧ v ≤ 100) ∧
    (∃ s, getKey (create_sample_message c t vs ss) "status" = some (.jstr s) ∧
      (s = "green" ∨ s = "yellow" ∨ s = "red")) := by
  refine ⟨by simp [create_sample_message, objKeys], getKey_msg_id c t vs ss,
    ⟨strftime t, getKey_msg_timestamp c t vs ss⟩,
    ⟨randint vs 0 100, getKey_msg_value c t vs ss, Nat.zero_le _, ?_⟩,
    ⟨randchoice ss ["green", "yellow", "red"], getKey_msg_status c t vs ss, ?_⟩⟩
  · have : vs % 101 < 101 := Nat.mod_lt vs (by omega)
    simp only [randint]
    omega
  · have h3 : ss % 3 = 0 ∨ ss % 3 = 1 ∨ ss % 3 = 2 := by omega
    rcases h3 with h | h | h <;> simp [randchoice, h]

/-- C8: serializing any message built by `create_sample_message` with the
producer's serializer and parsing it back with the consumer's parser
yields the structurally identical record, and all four required fields
are present in it. -/
theorem C8_wire_roundtrip (c : Nat) (t : DateTime) (vs ss : Nat) :
    loads (dumps (create_sample_message c t vs ss))
      = some (create_sample_message c t vs ss) ∧
    (getKey (create_sample_message c t vs ss) "message_id").isSome = true ∧
    (getKey (create_sample_message c t vs ss) "timestamp").isSome = true ∧
    (getKey (create_sample_message c t vs ss) "value").isSome = true ∧
    (getKey (create_sample_message c t vs ss) "status").isSome = true := by
  refine ⟨?_, ?_, ?_, ?_, ?_⟩
  · have hlen : 5 ≤ (dumps (create_sample_message c t vs ss)).data.length := by
      simp [dumps, create_sample_message, dumpsVal, dumpsFields]
    obtain ⟨f, hf⟩ : ∃ f, (dumps (create_sample_message c t vs ss)).data.length + 1 = f + 6 :=
      ⟨(dumps (create_sample_message c t vs ss)).data.length - 5, by omega⟩
    unfold loads
    rw [hf,
      show (dumps (create_sample_message c t vs ss)).data
        = dumpsVal (create_sample_message c t vs ss) from rfl,
      parseVal_dumps_message f c t vs ss]
    simp [skipSpaces]
  · rw [getKey_msg_id]; rfl
  · rw [getKey_msg_timestamp]; rfl
  · rw [getKey_msg_value]; rfl
  · rw [getKey_msg_status]; rfl
